import Mathlib

/-!
Shallow embedding of the LiteratureReview repository (three Python files:
`process_results.py`, `search_engine_requests.py`, `file_conversions.py`).

Modelling conventions:
* pandas DataFrames become `List Row`; a missing (NaN) cell of a text column
  becomes `none`, numeric cells become `Int` / `Option Int`.
* Python float arithmetic on small ratios of word counts is modelled with `ℚ`
  (all values that occur in the claims are exact in both systems).
* Python text operations (`str.lower`, `re.sub`, `str.split`, `str.strip`,
  `str.replace`) are modelled by structural functions over `List Char` so that
  every definition evaluates by kernel reduction.
* Exceptions are modelled with `Except`/`Option`; a Python `while` loop whose
  termination is not structural is modelled with explicit fuel, where `none`
  means the loop has not finished within the given fuel.
-/

/-- Canonical record schema (Title, Authors, Year, Cites, Abstract, DOI,
Journal); `Year` is numeric-or-missing, `DOI` is text-or-missing (NaN). -/
structure Row where
  Title : String
  Authors : String
  Year : Option Int
  Cites : Int
  Abstract : String
  DOI : Option String
  Journal : String
deriving DecidableEq

/-- Python `\w` character class on lowercased ASCII input: alphanumerics and
underscore. -/
def pyIsWord (c : Char) : Bool :=
  c.isAlphanum || c = '_'

/-- Python `\s` character class (ASCII): space, tab, newline, carriage return,
vertical tab, form feed. -/
def pyIsSpace (c : Char) : Bool :=
  c = ' ' || c = '\t' || c = '\n' || c = '\r' || c = '\x0b' || c = '\x0c'

/-- The character filter of `re.sub(r'[^\w\s]', '', ·)`: keep word characters
and whitespace, drop everything else. -/
def keepWordOrSpace (c : Char) : Bool :=
  pyIsWord c || pyIsSpace c

/-- process_results.py lines 173-174 (`normalize_title` inside
`find_common_papers`): lowercase the title, then strip every character that is
neither a word character nor whitespace. -/
def normalize_title (title : String) : String :=
  ⟨(title.toList.map Char.toLower).filter keepWordOrSpace⟩

/-- Python `str.split()` with no separator over a character list: cut at
whitespace runs and discard empty pieces.  Helper accumulating the current
word. -/
def pySplitAux : List Char → List Char → List String
  | [], acc => if acc = [] then [] else [⟨acc.reverse⟩]
  | c :: cs, acc =>
    if pyIsSpace c then
      if acc = [] then pySplitAux cs [] else ⟨acc.reverse⟩ :: pySplitAux cs []
    else
      pySplitAux cs (c :: acc)

/-- Python `s.split()` (whitespace tokenization, no empty tokens). -/
def pySplit (s : String) : List String :=
  pySplitAux s.toList []

/-- Python `set(s.split())` — only the number of distinct words and membership
matter, so a duplicate-free list models the set. -/
def wordSet (s : String) : List String :=
  (pySplit s).dedup

/-- process_results.py line 189, the similarity expression
`len(set(title1.split()) & set(title2.split())) / len(set(title1.split()))`
on already-normalized titles; `none` models the `ZeroDivisionError` raised
when `title1` has no word tokens. -/
def titleSimilarity (title1 title2 : String) : Option ℚ :=
  let s1 := wordSet title1
  let s2 := wordSet title2
  if s1.length = 0 then none
  else some ((s1.inter s2).length / (s1.length : ℚ))

/-- The four columns copied into `common_papers` entries
(process_results.py lines 192-197). -/
structure CommonPaper where
  Title : String
  Authors : String
  Year : Option Int
  Cites : Int
deriving DecidableEq

/-- process_results.py lines 183-198, the inner loop over `df2` for a fixed
`row1`: returns `true` as soon as some `row2` passes the similarity threshold
(the `break`), `false` when the rows of `df2` are exhausted, and an error when
the similarity expression divides by zero. -/
def rowMatchesAny (threshold : ℚ) (row1 : Row) : List Row → Except Unit Bool
  | [] => .ok false
  | row2 :: rest =>
    let t1 := normalize_title row1.Title
    let t2 := normalize_title row2.Title
    if t1.length > 0 ∧ t2.length > 0 then
      match titleSimilarity t1 t2 with
      | none => .error ()
      | some sim =>
        if sim ≥ threshold then .ok true else rowMatchesAny threshold row1 rest
    else
      rowMatchesAny threshold row1 rest

/-- process_results.py lines 180-198, the loop over `df1`: collect the
`CommonPaper` projection of every row of `df1` that matches some row of
`df2`. -/
def collectCommon (threshold : ℚ) (df1 df2 : List Row) : Except Unit (List CommonPaper) :=
  match df1 with
  | [] => .ok []
  | row1 :: rest => do
    let b ← rowMatchesAny threshold row1 df2
    let others ← collectCommon threshold rest df2
    if b then
      pure (⟨row1.Title, row1.Authors, row1.Year, row1.Cites⟩ :: others)
    else
      pure others

/-- Inner iteration of `for df2 in dfs[i+1:]` for a fixed `df1`. -/
def collectAgainstAll (threshold : ℚ) (df1 : List Row) :
    List (List Row) → Except Unit (List CommonPaper)
  | [] => .ok []
  | df2 :: rest => do
    let xs ← collectCommon threshold df1 df2
    let ys ← collectAgainstAll threshold df1 rest
    pure (xs ++ ys)

/-- Outer iteration of `for i, df1 in enumerate(dfs[:-1])`. -/
def collectPairs (threshold : ℚ) : List (List Row) → Except Unit (List CommonPaper)
  | [] => .ok []
  | df1 :: rest => do
    let xs ← collectAgainstAll threshold df1 rest
    let ys ← collectPairs threshold rest
    pure (xs ++ ys)

/-- Fuel-based helper for `dropDuplicates`; the fuel argument only makes the
recursion structural and `dropDuplicates` always supplies enough of it. -/
def dropDupAux : Nat → List CommonPaper → List CommonPaper
  | 0, l => l
  | _ + 1, [] => []
  | n + 1, x :: xs => x :: dropDupAux n (xs.filter (· ≠ x))

/-- pandas `drop_duplicates()`: keep the first occurrence of each full-row
value, in order. -/
def dropDuplicates (l : List CommonPaper) : List CommonPaper :=
  dropDupAux l.length l

/-- process_results.py lines 162-200, `find_common_papers`: every unordered
pair of distinct tables, every row of the first against every row of the
second, de-duplicated by full-row equality; `Except.error ()` models an
uncaught `ZeroDivisionError`. -/
def find_common_papers (dfs : List (List Row)) (threshold : ℚ) :
    Except Unit (List CommonPaper) :=
  (collectPairs threshold dfs).map dropDuplicates

/-- Selection relation of `df.nlargest(5, 'Cites')`: descending by `Cites`. -/
def citesGE (a b : Row) : Prop :=
  b.Cites ≤ a.Cites

instance : DecidableRel citesGE :=
  fun a b => Int.decLe b.Cites a.Cites

instance : IsTotal Row citesGE :=
  ⟨fun a b => (Int.le_total b.Cites a.Cites).imp id id⟩

instance : IsTrans Row citesGE :=
  ⟨fun _ _ _ h1 h2 => le_trans h2 h1⟩

/-- pandas `df.nlargest(n, 'Cites')` with the default `keep='first'`: the
first `n` rows in descending `Cites` order, ties kept in original row order
(pandas performs the selection with a stable mergesort of the candidate
indices); modelled as a stable sort followed by `take`. -/
def nlargestCites (n : Nat) (rows : List Row) : List Row :=
  (List.insertionSort citesGE rows).take n

/-- The four columns projected out of the top-cited rows
(process_results.py lines 120 and 145). -/
structure TopRecord where
  Title : String
  Authors : String
  Year : Option Int
  Cites : Int
deriving DecidableEq

/-- process_results.py lines 120 / 145:
`df.nlargest(5, 'Cites')[['Title', 'Authors', 'Year', 'Cites']].to_dict('records')`. -/
def top_cited (rows : List Row) : List TopRecord :=
  (nlargestCites 5 rows).map fun r => ⟨r.Title, r.Authors, r.Year, r.Cites⟩

/-- Result dictionary of `parse_search_info`. -/
structure SearchInfo where
  search_engine : String
  terms : List String
  excluded : List String
deriving DecidableEq

/-- Python `name.split('_')` over a character list: single-character
separator, empty pieces preserved. -/
def splitOnChar (sep : Char) : List Char → List String
  | [] => [""]
  | c :: cs =>
    match splitOnChar sep cs with
    | [] => if c = sep then ["", ""] else [⟨[c]⟩]
    | g :: gs => if c = sep then "" :: g :: gs else ⟨c :: g.toList⟩ :: gs

/-- Root part of `os.path.splitext(s)` for a plain filename: cut at the last
dot unless every character before it is a dot (then there is no extension). -/
def splitextRoot (s : String) : String :=
  let cs := s.toList
  match cs.reverse.findIdx? (· = '.') with
  | none => s
  | some k =>
    let i := cs.length - 1 - k
    if (cs.take i).all (· = '.') then s else ⟨cs.take i⟩

/-- process_results.py lines 78-88, the `while i < len(parts)` loop of
`parse_search_info`, expressed on the suffix of `parts` starting at `i`.
When the current token is `"ANDNOT"` and it is the last token, the Python
body runs neither `i += 2` nor `i += 1`, so the loop repeats with an
unchanged state; the embedding mirrors that by recursing on the same suffix,
and `none` means the fuel ran out before the loop finished. -/
def parseTermsLoop : Nat → List String → List String → List String →
    Option (List String × List String)
  | 0, _, _, _ => none
  | _ + 1, [], terms, excluded => some (terms, excluded)
  | fuel + 1, p :: rest, terms, excluded =>
    if p = "ANDNOT" then
      match rest with
      | x :: rest2 => parseTermsLoop fuel rest2 terms (excluded ++ [x])
      | [] => parseTermsLoop fuel (p :: rest) terms excluded
    else if p = "AND" then
      parseTermsLoop fuel rest terms excluded
    else
      parseTermsLoop fuel rest (terms ++ [p]) excluded

/-- process_results.py lines 61-94, `parse_search_info`: strip the extension,
split on underscores, first token is the search engine, the remaining tokens
are processed by the `while` loop.  Every terminating run of the Python loop
consumes at least one token per iteration, so `parts.length + 1` units of
fuel are always enough; `none` therefore models a non-terminating loop. -/
def parse_search_info (filename : String) : Option SearchInfo :=
  let name := splitextRoot filename
  let parts := splitOnChar '_' name.toList
  let engine := parts.headD ""
  match parseTermsLoop (parts.length + 1) parts.tail [] [] with
  | some (terms, excluded) => some ⟨engine, terms, excluded⟩
  | none => none

/-- Response of the Semantic Scholar endpoint for one DOI, abstracted to the
fields that `get_citation_count_from_multiple_sources` consumes: `err` is a
`requests` failure or non-2xx status, `ok` carries the `title` and
`citationCount` fields of the JSON body. -/
inductive SemanticScholarResp where
  | err : SemanticScholarResp
  | ok (title : String) (citationCount : Int) : SemanticScholarResp
deriving DecidableEq

/-- Response of the CrossRef endpoint: `err` is a request failure, `ok`
carries whether the body has a `message` object and its
`is-referenced-by-count` field. -/
inductive CrossRefResp where
  | err : CrossRefResp
  | ok (hasMessage : Bool) (isReferencedByCount : Int) : CrossRefResp
deriving DecidableEq

/-- Response of the Scopus endpoint: `err` is a request failure, `ok`
carries whether the body has a `full-text-retrieval-response` object and its
`citedby-count` field. -/
inductive ScopusResp where
  | err : ScopusResp
  | ok (hasRetrievalResponse : Bool) (citedbyCount : Int) : ScopusResp
deriving DecidableEq

/-- Response of the Google Scholar scrape: `err` is a request failure (the
`except` branch), `ok` carries the first `Cited by <n>` match of the HTML
body, if any. -/
inductive GoogleScholarResp where
  | err : GoogleScholarResp
  | ok (citedByMatch : Option Nat) : GoogleScholarResp
deriving DecidableEq

/-- One lookup's external world: the four provider responses for the given
DOI plus the `SCOPUS_API_KEY` environment variable. -/
structure ProviderWorld where
  semanticScholar : SemanticScholarResp
  crossref : CrossRefResp
  scopus : ScopusResp
  scopusApiKey : Option String
  googleScholar : GoogleScholarResp
deriving DecidableEq

/-- The providers of the fallback chain, in documentation order. -/
inductive Provider where
  | A : Provider
  | B : Provider
  | C : Provider
  | D : Provider
deriving DecidableEq

/-- Python `s.replace(pat, repl)` over character lists (all non-overlapping
occurrences, left to right); fuel-based so the recursion is structural, one
unit of fuel per consumed character is always enough for nonempty `pat`. -/
def replaceAux (pat repl : List Char) : Nat → List Char → List Char
  | 0, cs => cs
  | _ + 1, [] => []
  | fuel + 1, c :: cs =>
    if pat.isPrefixOf (c :: cs) ∧ pat ≠ [] then
      repl ++ replaceAux pat repl fuel ((c :: cs).drop pat.length)
    else
      c :: replaceAux pat repl fuel cs

/-- Python `s.replace(pat, repl)` on strings. -/
def pyReplace (s pat repl : String) : String :=
  ⟨replaceAux pat.toList repl.toList s.toList.length s.toList⟩

/-- Python `s.strip()`: drop leading and trailing whitespace. -/
def pyStrip (s : String) : String :=
  ⟨((s.toList.dropWhile pyIsSpace).reverse.dropWhile pyIsSpace).reverse⟩

/-- search_engine_requests.py lines 123-126: normalize the DOI by trimming
whitespace and stripping a leading DOI-resolver URL, https then http. -/
def clean_doi (doi : String) : String :=
  pyReplace (pyReplace (pyStrip doi) "https://doi.org/" "") "http://doi.org/" ""

/-- search_engine_requests.py lines 9-57, `get_citation_count_from_doi`
(Semantic Scholar): `none` on a request error, `none` on a successful
response with an empty title ("no paper found"), otherwise the title and
citation count. -/
def get_citation_count_from_doi (resp : SemanticScholarResp) :
    Option (String × Int) :=
  match resp with
  | .err => none
  | .ok title citationCount =>
    if title = "" then none else some (title, citationCount)

/-- search_engine_requests.py lines 59-105,
`get_citation_count_from_google_scholar`: `none` when the request itself
fails (the `except` branch), the matched number when the body contains
`Cited by <n>`, and `0` when no such pattern is found. -/
def get_citation_count_from_google_scholar (resp : GoogleScholarResp) :
    Option Int :=
  match resp with
  | .err => none
  | .ok (some n) => some (n : Int)
  | .ok none => some 0

/-- search_engine_requests.py lines 135-158, the CrossRef block: a positive
`is-referenced-by-count` behind a present `message` object, `none` in every
other case (error, absent message, or non-positive count). -/
def crossrefPositiveCount (resp : CrossRefResp) : Option Int :=
  match resp with
  | .err => none
  | .ok hasMessage count =>
    if hasMessage ∧ count > 0 then some count else none

/-- search_engine_requests.py lines 163-188, the Scopus block: a positive
`citedby-count` behind a present `full-text-retrieval-response` object,
`none` in every other case. -/
def scopusPositiveCount (resp : ScopusResp) : Option Int :=
  match resp with
  | .err => none
  | .ok hasRetrieval count =>
    if hasRetrieval ∧ count > 0 then some count else none

/-- search_engine_requests.py lines 190-198, the Google Scholar last resort:
return whatever the scraper produced when it did not fail, else fall through
to the final `return 0`.  The trace records that Provider D was attempted. -/
def googleScholarStep (w : ProviderWorld) (trace : List Provider) :
    Int × List Provider :=
  match get_citation_count_from_google_scholar w.googleScholar with
  | some c => (c, trace ++ [Provider.D])
  | none => (0, trace ++ [Provider.D])

/-- search_engine_requests.py lines 160-188: Scopus is attempted only when
`SCOPUS_API_KEY` is set; a positive count returns immediately, anything else
falls through to Google Scholar. -/
def scopusStep (w : ProviderWorld) (trace : List Provider) :
    Int × List Provider :=
  match w.scopusApiKey with
  | none => googleScholarStep w trace
  | some _ =>
    match scopusPositiveCount w.scopus with
    | some c => (c, trace ++ [Provider.C])
    | none => googleScholarStep w (trace ++ [Provider.C])

/-- search_engine_requests.py lines 134-158: CrossRef; a positive count
returns immediately, anything else falls through to the Scopus step. -/
def crossrefStep (w : ProviderWorld) (trace : List Provider) :
    Int × List Provider :=
  match crossrefPositiveCount w.crossref with
  | some c => (c, trace ++ [Provider.B])
  | none => scopusStep w (trace ++ [Provider.B])

/-- search_engine_requests.py lines 107-198,
`get_citation_count_from_multiple_sources`: clean the DOI, then try Semantic
Scholar, CrossRef, Scopus (if a key is configured) and Google Scholar in that
order, returning the first positive citation count immediately and `0` when
every provider fell through.  Alongside the returned count, the embedding
records the list of providers whose request was attempted, in order. -/
def get_citation_count_from_multiple_sources (w : ProviderWorld)
    (doi : String) : Int × List Provider :=
  let _ := clean_doi doi
  match get_citation_count_from_doi w.semanticScholar with
  | some r =>
    if r.2 > 0 then (r.2, [Provider.A]) else crossrefStep w [Provider.A]
  | none => crossrefStep w [Provider.A]

/-- Result of one run of `fill_acm_citation_count`: the final table, the
number of successful updates, and the intermediate checkpoint saves
(`df.to_csv` at every 10th update, in chronological order, each recording
the whole table as it was at that moment).  The unconditional final
`df.to_csv` persists `rows` once more, so the driver performs
`checkpoints.length + 1` persistence calls in total. -/
structure FillResult where
  rows : List Row
  updated : Nat
  checkpoints : List (List Row)
deriving DecidableEq

/-- search_engine_requests.py lines 211-228, the `for index, row in
df.iterrows()` loop of `fill_acm_citation_count`, written as recursion over
the remaining rows: skip a row with a missing DOI, skip a row whose `Cites`
is already positive, otherwise resolve and write back the count, counting the
update and checkpointing the whole table whenever `updated % 10 == 0`.
`resolve` abstracts `get_citation_count_from_multiple_sources` (whose result
the driver checks against `None` before writing it back). -/
def fillRows (resolve : String → Option Int) (updated : Nat) :
    List Row → FillResult
  | [] => ⟨[], updated, []⟩
  | r :: rest =>
    match r.DOI with
    | none =>
      let res := fillRows resolve updated rest
      ⟨r :: res.rows, res.updated, res.checkpoints.map (r :: ·)⟩
    | some doi =>
      if r.Cites > 0 then
        let res := fillRows resolve updated rest
        ⟨r :: res.rows, res.updated, res.checkpoints.map (r :: ·)⟩
      else
        match resolve doi with
        | none =>
          let res := fillRows resolve updated rest
          ⟨r :: res.rows, res.updated, res.checkpoints.map (r :: ·)⟩
        | some c =>
          let r2 : Row := { r with Cites := c }
          let u := updated + 1
          let res := fillRows resolve u rest
          let cps := res.checkpoints.map (r2 :: ·)
          ⟨r2 :: res.rows, res.updated,
            if u % 10 = 0 then (r2 :: rest) :: cps else cps⟩

/-- search_engine_requests.py lines 201-233, `fill_acm_citation_count`:
iterate over all rows starting from zero updates (the final save is the
`rows` field itself, see `FillResult`). -/
def fill_acm_citation_count (resolve : String → Option Int)
    (rows : List Row) : FillResult :=
  fillRows resolve 0 rows

/-- Output row of `convert_bib_to_csv`: every text column is written as a
plain (possibly empty) string, `Year` is numeric-or-missing. -/
structure BibRow where
  Title : String
  Authors : String
  Year : Option Int
  Cites : Int
  Abstract : String
  DOI : String
  Journal : String
deriving DecidableEq

/-- One parsed BibTeX entry: the association list of its fields, as produced
by `bibtexparser` (a field that the entry lacks is simply absent). -/
def BibEntry : Type := List (String × String)

/-- Columns of `pd.DataFrame(bib_database.entries)`: the union of the keys
appearing in at least one entry. -/
def bibColumns (entries : List BibEntry) : List String :=
  ((entries.map (fun e => e.map Prod.fst)).flatten).dedup

/-- Digit-list accumulator for `toNumeric`. -/
def parseDigitsAux : List Char → Nat → Option Nat
  | [], acc => some acc
  | c :: cs, acc =>
    if c.isDigit then parseDigitsAux cs (acc * 10 + (c.toNat - 48)) else none

/-- Python `pd.to_numeric(·, errors='coerce')` on one cell, for the integer
literals that year fields hold: the parsed integer, or `none` (NaN) when the
cell is not numeric. -/
def toNumeric (s : String) : Option Int :=
  match s.toList with
  | [] => none
  | '-' :: cs =>
    if cs = [] then none else (parseDigitsAux cs 0).map (fun n => -(n : Int))
  | cs => (parseDigitsAux cs 0).map (fun n => (n : Int))

/-- file_conversions.py lines 53-90, the `try` body of `convert_bib_to_csv`
after the file has been read, applied to the parsed entries.
`df['title']` (lines 65-67) raises `KeyError` when no entry at all has the
column; `df.get('abstract', '').fillna('')` (lines 71-73) raises
`AttributeError` when the column is absent, because the scalar default `''`
has no `fillna` — both land in the blanket `except`, which logs and makes the
caller receive the empty-path sentinel instead of a CSV.  When the columns
exist, a cell that a particular entry lacks is NaN and `fillna('')` turns it
into the empty string, and `Cites` is the constant 0. -/
def convert_bib_entries (entries : List BibEntry) :
    Except String (List BibRow) :=
  let cols := bibColumns entries
  if "title" ∉ cols then .error "KeyError: title"
  else if "author" ∉ cols then .error "KeyError: author"
  else if "year" ∉ cols then .error "KeyError: year"
  else if "abstract" ∉ cols then .error "AttributeError: fillna"
  else if "doi" ∉ cols then .error "AttributeError: fillna"
  else if "journal" ∉ cols then .error "AttributeError: fillna"
  else .ok (entries.map fun e =>
    { Title := ((e : List (String × String)).lookup "title").getD ""
      Authors := ((e : List (String × String)).lookup "author").getD ""
      Year := ((e : List (String × String)).lookup "year").bind toNumeric
      Cites := 0
      Abstract := ((e : List (String × String)).lookup "abstract").getD ""
      DOI := ((e : List (String × String)).lookup "doi").getD ""
      Journal := ((e : List (String × String)).lookup "journal").getD "" })

/-- A row still awaiting citation resolution: DOI present, `Cites = 0`. -/
def pendingRow : Row :=
  ⟨"Paper", "Author", some 2020, 0, "", some "10.1/x", "Journal"⟩

/-- The same row after the resolver wrote back a count of 7. -/
def resolvedRow : Row :=
  { pendingRow with Cites := 7 }

/-- A table of 25 rows that all need resolution. -/
def batchRows : List Row :=
  List.replicate 25 pendingRow

/-- A resolver oracle that always finds 7 citations. -/
def constantResolver : String → Option Int :=
  fun _ => some 7

/-- The table as checkpointed after the 10th successful update. -/
def checkpointAt10 : List Row :=
  List.replicate 10 resolvedRow ++ List.replicate 15 pendingRow

/-- The table as checkpointed after the 20th successful update — the on-disk
state when the process is stopped after row 22 (updates 21 and 22 were only
in memory). -/
def checkpointAt20 : List Row :=
  List.replicate 20 resolvedRow ++ List.replicate 5 pendingRow

/-- A row whose `Cites` value ties with the other `tieRows` members. -/
def tieRow (name : String) : Row :=
  ⟨name, name, some 2021, 10, "", none, ""⟩

/-- Five rows with equal `Cites = 10` in original order E, D, C, B, A. -/
def tieRows : List Row :=
  [tieRow "E", tieRow "D", tieRow "C", tieRow "B", tieRow "A"]

/-- Record with the one-word title "cats". -/
def catsRow : Row :=
  ⟨"cats", "a1", some 2020, 1, "", none, ""⟩

/-- Record with the three-word title "cats and dogs". -/
def catsAndDogsRow : Row :=
  ⟨"cats and dogs", "a2", some 2021, 2, "", none, ""⟩

/-- Record whose title is a single space: it normalizes to a nonempty string
with no word tokens. -/
def blankTitleRow : Row :=
  ⟨" ", "a3", some 2022, 3, "", none, ""⟩

/-- Record whose title is punctuation only: it normalizes to the empty
string. -/
def punctTitleRow : Row :=
  ⟨"!!!", "a4", some 2023, 4, "", none, ""⟩

/-- World for the fallback scenario: Semantic Scholar answers with zero
citations, CrossRef answers with five, no Scopus key, and Google Scholar
would fail if it were ever reached. -/
def scenarioWorld : ProviderWorld :=
  ⟨.ok "Some paper" 0, .ok true 5, .err, none, .err⟩

/-- World in which every provider request fails and no Scopus key is set. -/
def failedWorld : ProviderWorld :=
  ⟨.err, .err, .err, none, .err⟩

/-- A BibTeX entry carrying every mapped field. -/
def fullEntry : BibEntry :=
  [("title", "T1"), ("author", "A1"), ("year", "2020"),
   ("abstract", "Ab"), ("doi", "10.1/x"), ("journal", "J")]

/-- A BibTeX entry carrying only a title. -/
def sparseEntry : BibEntry :=
  [("title", "T2")]

/-- A BibTeX entry with the required fields but no optional field at all. -/
def minimalEntry : BibEntry :=
  [("title", "T1"), ("author", "A1"), ("year", "2020")]

/-- Claim C5: the claim says that a title with no word tokens is never
reported as a duplicate and that the similarity computation never raises, so
that `find_common_papers` is total over all title strings.  The code violates
this: a title normalizing to the empty string is indeed skipped by the
`len(title1) > 0` guard (second and third conjuncts), but a title whose
normal form is nonempty whitespace — positive length, zero word tokens —
passes the guard and the similarity expression divides by
`len(set(title1.split())) = 0` (first conjunct: the run aborts with the
modelled `ZeroDivisionError`). -/
theorem find_common_papers_zero_division :
    find_common_papers [[blankTitleRow], [catsRow]] (4 / 5) = .error () ∧
    find_common_papers [[punctTitleRow], [catsRow]] (4 / 5) = .ok [] ∧
    find_common_papers [[catsRow], [punctTitleRow]] (4 / 5) = .ok [] := by
  refine ⟨rfl, rfl, rfl⟩

/-- Claim C8: on a tag where `"ANDNOT"` is followed by a token, the parse is
as described — first token is the engine, `"AND"` is skipped, the token after
`"ANDNOT"` becomes an excluded term (first conjunct).  But the claim's
universal form fails: when `"ANDNOT"` is the final token, the loop body runs
neither `i += 2` nor `i += 1` and the function never returns (second
conjunct: the fuelled loop, given ample fuel for any terminating run, does
not finish). -/
theorem parse_search_info_eval :
    parse_search_info "scholar_machine_AND_learning_ANDNOT_surveys.csv" =
      some ⟨"scholar", ["machine", "learning"], ["surveys"]⟩ ∧
    parse_search_info "engine_cats_ANDNOT.csv" = none := by
  refine ⟨rfl, rfl⟩

/-- Claim C10: the claim says `parse_search_info` terminates on every
filename.  It does not: on a filename whose last underscore-separated token
is `"ANDNOT"`, the `while` loop reaches the suffix `["ANDNOT"]` and repeats
it with an unchanged state, so no amount of fuel finishes the loop (first
conjunct quantifies over all fuel values and loop accumulators), and the
function as a whole produces no result (second conjunct). -/
theorem parse_search_info_divergence :
    (∀ (fuel : Nat) (terms excluded : List String),
      parseTermsLoop fuel ["ANDNOT"] terms excluded = none) ∧
    parse_search_info "engine_ANDNOT.csv" = none := by
  constructor
  · intro fuel
    induction fuel with
    | zero => intro t e; rfl
    | succ n ih =>
      intro t e
      simpa only [parseTermsLoop, if_pos rfl] using ih t e
  · rfl

/-- Claim C9: the claim says entries lacking optional fields still produce
rows with empty-string defaults, and that the caller receives an empty result
only on total file-read failure.  The second conjunct shows the part of this
that does hold: when each optional column exists somewhere in the file, an
entry lacking a field gets the empty string (and `Cites = 0` always).  The
first conjunct shows the violation: when no entry at all carries an optional
field, `df.get('<field>', '').fillna('')` runs `fillna` on the scalar
default, raises `AttributeError`, and the blanket `except` makes the caller
receive the empty sentinel although the file was read successfully. -/
theorem convert_bib_missing_column :
    convert_bib_entries [minimalEntry] = .error "AttributeError: fillna" ∧
    convert_bib_entries [fullEntry, sparseEntry] =
      .ok [⟨"T1", "A1", some 2020, 0, "Ab", "10.1/x", "J"⟩,
           ⟨"T2", "", none, 0, "", "", ""⟩] := by
  refine ⟨rfl, rfl⟩

/-- Claim C2 counterexample: with every provider request failing (and no
Scopus key), Provider D hard-fails and yet the resolver returns 0 — not an
error sentinel distinct from 0 — so the claim as stated is false.  The trace
confirms that Provider D was attempted and therefore the 0 cannot mean
"Provider D did not hard-fail". -/
theorem resolver_zero_on_failure_cex :
    get_citation_count_from_multiple_sources failedWorld "10.1/x" =
      (0, [Provider.A, Provider.B, Provider.D]) := by
  rfl

/-- Claim C3 counterexample: for 25 rows that all need resolution, the batch
driver checkpoints at the 10th and the 20th successful update only — two
intermediate persistence calls, not the three the claim states (the
unconditional final save is a further, third persistence call). -/
theorem fill_checkpoint_count_cex :
    (fill_acm_citation_count constantResolver batchRows).checkpoints.length = 2 ∧
    (fill_acm_citation_count constantResolver batchRows).checkpoints.length ≠ 3 := by
  refine ⟨rfl, by decide⟩

/-- Claim C3 as amended: for 25 rows needing resolution the driver performs
exactly 2 intermediate persistence calls — after the 10th and after the 20th
successful update, each recording the table with exactly that many rows
updated — plus the one unconditional final save, 3 persistence calls in
total.  After a stop at row 22 the on-disk table is the 20-update checkpoint,
and a rerun on it skips the first 20 rows (their `Cites` is already
positive): it performs only 5 updates, reaches no intermediate checkpoint,
leaves the first 20 rows untouched and completes the table. -/
theorem fill_checkpoint_amended :
    (fill_acm_citation_count constantResolver batchRows).checkpoints =
      [checkpointAt10, checkpointAt20] ∧
    (fill_acm_citation_count constantResolver batchRows).updated = 25 ∧
    (fill_acm_citation_count constantResolver batchRows).rows =
      List.replicate 25 resolvedRow ∧
    (fill_acm_citation_count constantResolver checkpointAt20).updated = 5 ∧
    (fill_acm_citation_count constantResolver checkpointAt20).checkpoints = [] ∧
    (fill_acm_citation_count constantResolver checkpointAt20).rows =
      List.replicate 25 resolvedRow ∧
    (fill_acm_citation_count constantResolver checkpointAt20).rows.take 20 =
      checkpointAt20.take 20 := by
  refine ⟨rfl, rfl, rfl, rfl, rfl, rfl, rfl⟩

/-- Claim C7: the top-5-cited selection is stable — five rows that all have
`Cites = 10` in original order E, D, C, B, A come out exactly in that order
(first conjunct) — and it selects the records with highest `Cites`: the
input is a permutation of the selection plus a remainder, and every remainder
row has at most the `Cites` of every selected row (second conjunct). -/
theorem top_cited_stable :
    top_cited tieRows =
      [⟨"E", "E", some 2021, 10⟩, ⟨"D", "D", some 2021, 10⟩,
       ⟨"C", "C", some 2021, 10⟩, ⟨"B", "B", some 2021, 10⟩,
       ⟨"A", "A", some 2021, 10⟩] ∧
    ∀ rows : List Row, ∃ rest : List Row,
      rows.Perm (nlargestCites 5 rows ++ rest) ∧
      ∀ x ∈ nlargestCites 5 rows, ∀ y ∈ rest, y.Cites ≤ x.Cites := by
  constructor
  · rfl
  · intro rows
    refine ⟨(List.insertionSort citesGE rows).drop 5, ?_, ?_⟩
    · have hperm := (List.perm_insertionSort citesGE rows).symm
      simpa only [nlargestCites, List.take_append_drop] using hperm
    · intro x hx y hy
      have hpw : List.Pairwise citesGE (List.insertionSort citesGE rows) :=
        List.sorted_insertionSort citesGE rows
      rw [← List.take_append_drop 5 (List.insertionSort citesGE rows)] at hpw
      simp only [nlargestCites] at hx
      exact (List.pairwise_append.mp hpw).2.2 x hx y hy

/-- Claim C4: duplicate-detection similarity is the intersection size of the
normalized title word-sets divided by the word-set size of the first title,
hence asymmetric: similarity("cats", "cats and dogs") = 1 while
similarity("cats and dogs", "cats") = 1/3, and with the default threshold 0.8
the one-word record is reported against the three-word table while the
reverse comparison is not. -/
theorem similarity_asymmetric :
    titleSimilarity (normalize_title "cats") (normalize_title "cats and dogs") =
      some 1 ∧
    titleSimilarity (normalize_title "cats and dogs") (normalize_title "cats") =
      some (1 / 3) ∧
    rowMatchesAny (4 / 5) catsRow [catsAndDogsRow] = .ok true ∧
    rowMatchesAny (4 / 5) catsAndDogsRow [catsRow] = .ok false := by
  have hw1 : wordSet (normalize_title "cats") = ["cats"] := rfl
  have hw2 : wordSet (normalize_title "cats and dogs") =
      ["cats", "and", "dogs"] := rfl
  have hi1 : (["cats"] : List String).inter ["cats", "and", "dogs"] =
      ["cats"] := rfl
  have hi2 : (["cats", "and", "dogs"] : List String).inter ["cats"] =
      ["cats"] := rfl
  have hs1 : titleSimilarity (normalize_title "cats")
      (normalize_title "cats and dogs") = some 1 := by
    simp [titleSimilarity, hw1, hw2, hi1]
  have hs2 : titleSimilarity (normalize_title "cats and dogs")
      (normalize_title "cats") = some (1 / 3) := by
    simp [titleSimilarity, hw1, hw2, hi2]
  have hl1 : (normalize_title "cats").length = 4 := rfl
  have hl2 : (normalize_title "cats and dogs").length = 13 := rfl
  refine ⟨hs1, hs2, ?_, ?_⟩
  · norm_num [rowMatchesAny, catsRow, catsAndDogsRow, hs1, hl1, hl2]
  · norm_num [rowMatchesAny, catsRow, catsAndDogsRow, hs2, hl1, hl2]

/-- The Google Scholar step always appends exactly Provider D to the attempt
trace, whether or not the scrape succeeds. -/
theorem googleScholarStep_trace (w : ProviderWorld) (tr : List Provider) :
    (googleScholarStep w tr).2 = tr ++ [Provider.D] := by
  unfold googleScholarStep
  cases get_citation_count_from_google_scholar w.googleScholar <;> rfl

/-- Claim C1: for every world of provider responses the attempt trace is one
of the five order-respecting chains A / A,B / A,B,C / A,B,D / A,B,C,D (first
conjunct); Provider C is never attempted without a configured Scopus API key
(second conjunct); and in the claim's scenario — Provider A answers with
citation count 0, Provider B with 5 — the resolver returns 5 having attempted
exactly A then B, so Provider D is never reached (third conjunct). -/
theorem resolver_fallback_order :
    (∀ (w : ProviderWorld) (doi : String),
      (get_citation_count_from_multiple_sources w doi).2 = [Provider.A] ∨
      (get_citation_count_from_multiple_sources w doi).2 =
        [Provider.A, Provider.B] ∨
      (get_citation_count_from_multiple_sources w doi).2 =
        [Provider.A, Provider.B, Provider.C] ∨
      (get_citation_count_from_multiple_sources w doi).2 =
        [Provider.A, Provider.B, Provider.D] ∨
      (get_citation_count_from_multiple_sources w doi).2 =
        [Provider.A, Provider.B, Provider.C, Provider.D]) ∧
    (∀ (w : ProviderWorld) (doi : String), w.scopusApiKey = none →
      Provider.C ∉ (get_citation_count_from_multiple_sources w doi).2) ∧
    (∀ (w : ProviderWorld) (doi : String) (t : String),
      w.semanticScholar = SemanticScholarResp.ok t 0 →
      w.crossref = CrossRefResp.ok true 5 →
      get_citation_count_from_multiple_sources w doi =
        (5, [Provider.A, Provider.B])) := by
  refine ⟨?_, ?_, ?_⟩
  · intro w doi
    rcases w with ⟨a, b, c, key, d⟩
    rcases a with _ | ⟨t, ca⟩ <;> rcases b with _ | ⟨mb, cb⟩ <;>
      rcases c with _ | ⟨mc, cc⟩ <;> rcases key with _ | k <;>
      rcases d with _ | (_ | n) <;>
      simp only [get_citation_count_from_multiple_sources, crossrefStep,
        scopusStep, googleScholarStep, get_citation_count_from_doi,
        crossrefPositiveCount, scopusPositiveCount,
        get_citation_count_from_google_scholar] <;>
      (try split_ifs) <;> simp_all <;> (try split_ifs) <;> simp_all
  · intro w doi hkey
    rcases w with ⟨a, b, c, key, d⟩
    simp only at hkey
    subst hkey
    rcases a with _ | ⟨t, ca⟩ <;> rcases b with _ | ⟨mb, cb⟩ <;>
      rcases d with _ | (_ | n) <;>
      simp only [get_citation_count_from_multiple_sources, crossrefStep,
        scopusStep, googleScholarStep, get_citation_count_from_doi,
        crossrefPositiveCount, scopusPositiveCount,
        get_citation_count_from_google_scholar] <;>
      (try split_ifs) <;> simp_all <;> (try split_ifs) <;> simp_all
  · intro w doi t hA hB
    rcases w with ⟨a, b, c, key, d⟩
    simp only at hA hB
    subst hA
    subst hB
    by_cases ht : t = "" <;>
      simp [get_citation_count_from_multiple_sources, crossrefStep,
        get_citation_count_from_doi, crossrefPositiveCount, ht]

/-- Witness for Claim C1's hypotheses: in the concrete scenario world the
resolver returns 5 with trace A, B. -/
theorem resolver_fallback_order_witness :
    get_citation_count_from_multiple_sources scenarioWorld "10.1/x" =
      (5, [Provider.A, Provider.B]) :=
  resolver_fallback_order.2.2 scenarioWorld "10.1/x" "Some paper" rfl rfl

/-- Claim C2 as amended: the error sentinel distinct from 0 exists only at
the level of the Google Scholar helper, which returns it (`None`) exactly
when the request itself fails and returns 0 when a successful response has
no `Cited by` pattern (first two conjuncts); the multi-source resolver
however collapses that sentinel: whenever Providers A, B and C yield no
positive count, it returns 0 even when Provider D hard-failed (third
conjunct), so callers cannot distinguish "tried, found none" from "Provider
D unreachable". -/
theorem resolver_zero_amended :
    (get_citation_count_from_google_scholar GoogleScholarResp.err = none) ∧
    (get_citation_count_from_google_scholar (GoogleScholarResp.ok none) =
      some 0) ∧
    ∀ (w : ProviderWorld) (doi : String),
      (∀ t c, w.semanticScholar = SemanticScholarResp.ok t c → c ≤ 0) →
      (∀ c, w.crossref = CrossRefResp.ok true c → c ≤ 0) →
      (∀ c, w.scopus = ScopusResp.ok true c → c ≤ 0) →
      w.googleScholar = GoogleScholarResp.err →
      (get_citation_count_from_multiple_sources w doi).1 = 0 := by
  refine ⟨rfl, rfl, ?_⟩
  intro w doi hA hB hC hD
  rcases w with ⟨a, b, c, key, d⟩
  simp only at hA hB hC hD
  subst hD
  rcases a with _ | ⟨t, ca⟩ <;> rcases b with _ | ⟨mb, cb⟩ <;>
    rcases c with _ | ⟨mc, cc⟩ <;> rcases key with _ | k <;>
    simp only [get_citation_count_from_multiple_sources, crossrefStep,
      scopusStep, googleScholarStep, get_citation_count_from_doi,
      crossrefPositiveCount, scopusPositiveCount,
      get_citation_count_from_google_scholar] <;>
    (try split_ifs) <;> (try simp_all) <;> (try split_ifs) <;>
    (try simp_all) <;> (try omega)

/-- Witness for Claim C2's amended theorem: in the all-failing world the
resolver returns 0. -/
theorem resolver_zero_amended_witness :
    (get_citation_count_from_multiple_sources failedWorld "10.1/x").1 = 0 :=
  resolver_zero_amended.2.2 failedWorld "10.1/x"
    (fun t c h => by simp [failedWorld] at h)
    (fun c h => by simp [failedWorld] at h)
    (fun c h => by simp [failedWorld] at h) rfl

/-- Loop invariant for Claim C6: whatever the update counter is, the row list
produced by `fillRows` is pointwise related to the input — all fields except
`Cites` are preserved, and skipped rows are preserved entirely. -/
theorem fillRows_frame (resolve : String → Option Int) (rows : List Row) :
    ∀ updated : Nat,
      List.Forall₂ (fun r r2 =>
        r2.Title = r.Title ∧ r2.Authors = r.Authors ∧ r2.Year = r.Year ∧
        r2.Abstract = r.Abstract ∧ r2.DOI = r.DOI ∧ r2.Journal = r.Journal ∧
        ((r.DOI = none ∨ r.Cites > 0) → r2 = r))
        rows (fillRows resolve updated rows).rows := by
  induction rows with
  | nil => intro u; exact List.Forall₂.nil
  | cons r rest ih =>
    intro u
    cases hdoi : r.DOI with
    | none =>
      simp only [fillRows, hdoi]
      exact List.Forall₂.cons ⟨rfl, rfl, rfl, rfl, rfl, rfl, fun _ => rfl⟩ (ih u)
    | some doi =>
      by_cases hc : r.Cites > 0
      · simp only [fillRows, hdoi, if_pos hc]
        exact List.Forall₂.cons ⟨rfl, rfl, rfl, rfl, rfl, rfl, fun _ => rfl⟩
          (ih u)
      · cases hres : resolve doi with
        | none =>
          simp only [fillRows, hdoi, if_neg hc, hres]
          exact List.Forall₂.cons ⟨rfl, rfl, rfl, rfl, rfl, rfl, fun _ => rfl⟩
            (ih u)
        | some c =>
          simp only [fillRows, hdoi, if_neg hc, hres]
          refine List.Forall₂.cons ⟨rfl, rfl, rfl, rfl, hdoi.symm, rfl, ?_⟩
            (ih (u + 1))
          intro h
          rcases h with h | h
          · exact absurd h (by simp [hdoi])
          · exact absurd h hc

/-- Claim C6: for every input table and every resolver oracle, the batch
driver `fill_acm_citation_count` changes at most the `Cites` field of each
row (Title, Authors, Year, Abstract, DOI and Journal are preserved
pointwise), and a row whose DOI is missing or whose `Cites` is already
positive is returned entirely unchanged. -/
theorem fill_acm_citation_count_frame (resolve : String → Option Int)
    (rows : List Row) :
    List.Forall₂ (fun r r2 =>
      r2.Title = r.Title ∧ r2.Authors = r.Authors ∧ r2.Year = r.Year ∧
      r2.Abstract = r.Abstract ∧ r2.DOI = r.DOI ∧ r2.Journal = r.Journal ∧
      ((r.DOI = none ∨ r.Cites > 0) → r2 = r))
      rows (fill_acm_citation_count resolve rows).rows :=
  fillRows_frame resolve rows 0
